import Mathlib

/-!
Verification of the Wyze WLCKG1 zigbee2mqtt external converter
(`src/zigbee2mqtt/external_converters/wyze-lock-ext.js`).

The converter decodes raw manufacturer-specific frames from the lock into
structured lock/door events.  The embedding below mirrors the decoding core:

* byte-offset constants and event-type constants (source lines 62-73);
* the composite-state table `STATE_MAP` (lines 77-83);
* the per-device mutable maps `_seqHighWater` / `_lastEventTime` as a
  `ConvState` record of functions from device id to optional entries
  (lines 119-120);
* `isOldOrDuplicate` (lines 128-151), which both queries and updates the
  high-water map, modelled as returning the decision together with the
  updated state;
* `isStale` (lines 153-189), a pure query (the JS function performs no
  writes); timestamps are in milliseconds as in `Date.now()`, and
  `Math.floor(timeDeltaMs / 1000)` is `Int.fdiv _ 1000`;
* `markEventProcessed` (lines 191-194);
* the classifier part of `convert` (lines 257-346), split into
  `lockBranch` (lines 260-298), `doorBranch` (lines 301-335) and the
  sequencing `classify`;
* `decode`, the body of `convert` (lines 245-346), with byte reads in
  `Except Unit` so that an out-of-bounds read would be an observable
  error (`readByte`); `convert` returning `undefined` is `none`, and the
  JS result object is the record `DecodedEvent` whose fields are all
  optional (the empty object `{}` is the record with every field `none`).
-/

namespace WyzeLock

/-- Byte offset of the global lifetime counter used for deduplication
(source line 63: `const IDX_SEQ = 13`). -/
def IDX_SEQ : Nat := 13

/-- Byte offset of the event-type code (source line 64). -/
def IDX_EVENT_TYPE : Nat := 57

/-- Byte offset of the composite-state code (source line 65). -/
def IDX_STATE : Nat := 46

/-- Event type: manual thumbturn (source line 68). -/
def EVT_MANUAL : Nat := 19

/-- Event type: auto-lock timer (source line 69). -/
def EVT_AUTO : Nat := 5

/-- Event type: app/remote command (source line 70). -/
def EVT_APP : Nat := 12

/-- Event type: app/remote command, alternate encoding (source line 71). -/
def EVT_APP2 : Nat := 23

/-- Event type: accelerometer/door trigger (source line 72). -/
def EVT_DOOR : Nat := 233

/-- The set of lock-trigger event types (source line 73). -/
def LOCK_EVT_TYPES : List Nat := [EVT_MANUAL, EVT_AUTO, EVT_APP, EVT_APP2]

/-- Entry of the composite-state table (source lines 77-83): the JS object
`{ locked, door, confirmed, note }`, where `door = null` is `none`. -/
structure StateInfo where
  locked : Bool
  door : Option String
  confirmed : Bool
  note : String
deriving DecidableEq

/-- The composite-state table `STATE_MAP` (source lines 77-83), as a
function from the 8-bit state code to the optional entry. -/
def STATE_MAP (code : Nat) : Option StateInfo :=
  if code = 0 then
    some { locked := true, door := none, confirmed := true,
           note := "locked, accelerometer movement" }
  else if code = 96 then
    some { locked := true, door := none, confirmed := true, note := "locked" }
  else if code = 103 then
    some { locked := false, door := none, confirmed := true,
           note := "unlocked, door position unreliable" }
  else if code = 115 then
    some { locked := false, door := some "open", confirmed := true,
           note := "unlocked, door open/ajar" }
  else if code = 112 then
    some { locked := false, door := none, confirmed := false,
           note := "unlocked (unconfirmed state)" }
  else none

/-- Entry of the `_lastEventTime` map (source line 120):
`{ counter: N, timestamp: ms }`. -/
structure LastEvent where
  counter : Nat
  timestamp : Int
deriving DecidableEq

/-- The converter's per-device mutable state: `_seqHighWater` (line 119)
and `_lastEventTime` (line 120), each a map from device id to an
optional entry. -/
structure ConvState where
  seqHighWater : String → Option Nat
  lastEventTime : String → Option LastEvent

/-- The initial state: both maps empty. -/
def ConvState.empty : ConvState :=
  { seqHighWater := fun _ => none, lastEventTime := fun _ => none }

/-- `_seqHighWater.set(id, v)` (source lines 134 and 148). -/
def setHighWater (st : ConvState) (id : String) (v : Nat) : ConvState :=
  { st with seqHighWater := fun s => if s = id then some v else st.seqHighWater s }

/-- `isOldOrDuplicate` (source lines 128-151).  Returns the boolean result
together with the state after the function's writes to `_seqHighWater`.
`incoming` is `msg.data[IDX_SEQ]` and `id` is `msg.device.ieeeAddr`. -/
def isOldOrDuplicate (st : ConvState) (id : String) (incoming : Nat) :
    Bool × ConvState :=
  match st.seqHighWater id with
  | none => (false, setHighWater st id incoming)
  | some highWater =>
    let diff : Int := ((highWater : Int) - (incoming : Int) + 256) % 256
    if diff < 128 then (true, st)
    else (false, setHighWater st id incoming)

/-- `isStale` (source lines 153-189).  A pure query: the JS function never
writes the maps.  `now` is `Date.now()` in milliseconds. -/
def isStale (st : ConvState) (id : String) (incoming : Nat)
    (eventState : Nat) (now : Int) : Bool :=
  if eventState ≠ 103 then false
  else
    match st.lastEventTime id with
    | none => false
    | some last =>
      let counterDelta : Int := ((incoming : Int) - (last.counter : Int) + 256) % 256
      let timeDeltaMs : Int := now - last.timestamp
      let timeDeltaSec : Int := Int.fdiv timeDeltaMs 1000
      if timeDeltaSec > 7200 then false
      else
        let expectedMaxSec : Int := counterDelta * 60
        if timeDeltaSec > expectedMaxSec ∧ timeDeltaSec > 300 then true
        else false

/-- `markEventProcessed` (source lines 191-194): write the
`_lastEventTime` entry for the device. -/
def markEventProcessed (st : ConvState) (id : String) (counter : Nat)
    (now : Int) : ConvState :=
  { st with lastEventTime := fun s =>
      if s = id then some { counter := counter, timestamp := now }
      else st.lastEventTime s }

/-- The JS `result` object built by `convert` (source lines 257-346): all
fields optional, the empty object is the record with every field `none`. -/
structure DecodedEvent where
  state : Option String := none
  lock_state : Option String := none
  action : Option String := none
  door_state : Option String := none
  contact : Option Bool := none
deriving DecidableEq

/-- The lock-trigger branch of `convert` (source lines 260-298): look up
`STATE_MAP[eventState]`; an unknown state is an early `return` of
`undefined` (`none`); otherwise populate the result fields. -/
def lockBranch (eventType eventState : Nat) (result : DecodedEvent) :
    Option DecodedEvent :=
  match STATE_MAP eventState with
  | none => none
  | some stateInfo =>
    let action := if eventType = EVT_MANUAL then "manual"
      else if eventType = EVT_AUTO then "auto"
      else if eventType = EVT_APP2 then "app"
      else "app"
    let r := { result with
      state := some (if stateInfo.locked then "LOCK" else "UNLOCK"),
      lock_state := some (if stateInfo.locked then "locked" else "unlocked"),
      action := some action }
    if stateInfo.door ≠ none then
      some { r with door_state := stateInfo.door,
                    contact := some (decide (stateInfo.door = some "closed")) }
    else some r

/-- The door-only branch of `convert` (source lines 301-335): the
accelerometer mini-table over the composite state; an unknown state is an
early `return` of `undefined` (`none`); state 0 leaves the result
untouched. -/
def doorBranch (eventState : Nat) (result : DecodedEvent) :
    Option DecodedEvent :=
  if eventState = 96 ∨ eventState = 112 then
    some { result with door_state := some "closed", contact := some true }
  else if eventState = 103 ∨ eventState = 115 then
    let r := { result with door_state := some "open", contact := some false }
    some (if eventState = 115 then { r with lock_state := some "unlocked" } else r)
  else if eventState = 0 then some result
  else none

/-- The classifier part of `convert` (source lines 257-346): run the
lock-trigger branch, then the door branch, then the unknown-event-type
catch-all (lines 338-344), each able to `return` early with no event.
`some` of the final `result` models `return result` on line 346. -/
def classify (eventType eventState : Nat) : Option DecodedEvent :=
  let afterLock : Option DecodedEvent :=
    if LOCK_EVT_TYPES.contains eventType then lockBranch eventType eventState {}
    else some {}
  match afterLock with
  | none => none
  | some r1 =>
    match (if eventType = EVT_DOOR then doorBranch eventState r1 else some r1) with
    | none => none
    | some r2 =>
      if LOCK_EVT_TYPES.contains eventType = false ∧ eventType ≠ EVT_DOOR then none
      else some r2

/-- Read byte `i` of the buffer.  An out-of-bounds access is an explicit
error, so that a theorem can state that `decode` never performs one. -/
def readByte (data : List Nat) (i : Nat) : Except Unit Nat :=
  if h : i < data.length then Except.ok (data.get ⟨i, h⟩) else Except.error ()

/-- The body of `convert` (source lines 245-346): length validation
(line 245), deduplication (line 246), field extraction (lines 248-249),
staleness (line 254), `markEventProcessed` (line 255), then the
classifier.  Returns the optional event together with the updated state;
`Except.error` would mean an out-of-bounds byte read. -/
def decode (st : ConvState) (id : String) (data : List Nat) (now : Int) :
    Except Unit (Option DecodedEvent × ConvState) :=
  if data.length < 70 ∨ data.length > 90 then Except.ok (none, st)
  else
    match readByte data IDX_SEQ with
    | Except.error e => Except.error e
    | Except.ok seq =>
      let p := isOldOrDuplicate st id seq
      if p.fst then Except.ok (none, p.snd)
      else
        match readByte data IDX_EVENT_TYPE, readByte data IDX_STATE with
        | Except.error e, _ => Except.error e
        | _, Except.error e => Except.error e
        | Except.ok eventType, Except.ok eventState =>
          if isStale p.snd id seq eventState now then Except.ok (none, p.snd)
          else
            let st2 := markEventProcessed p.snd id seq now
            Except.ok (classify eventType eventState, st2)

/-- A state whose staleness record for device `"A"` is
`{ counter := 70, timestamp := 0 }` and whose high-water map is empty:
the situation after a first frame with counter 70 was fully processed at
time 0 (used for the concrete staleness scenarios). -/
def stalePrior : ConvState :=
  { ConvState.empty with
    lastEventTime := fun s =>
      if s = "A" then some { counter := 70, timestamp := 0 } else none }

/-- Claim C1: sequence deduplication.  For every device, the first frame
ever seen is accepted and its counter recorded as the high-water mark; a
later frame with `diff = (high_water - incoming + 256) mod 256` is
dropped with the high-water mark unchanged when `diff < 128`, and
accepted with the high-water mark set to the incoming counter when
`diff >= 128`; consequently a frame whose counter equals the current
high-water mark (`diff = 0`) is dropped with the state unchanged, any
number of times (the iterated replay in the last conjunct). -/
theorem dedup_highwater_spec (st : ConvState) (id : String) (c : Nat) :
    (st.seqHighWater id = none →
      (isOldOrDuplicate st id c).fst = false ∧
      (isOldOrDuplicate st id c).snd.seqHighWater id = some c) ∧
    (∀ h : Nat, st.seqHighWater id = some h →
      (((h : Int) - (c : Int) + 256) % 256 < 128 →
        isOldOrDuplicate st id c = (true, st)) ∧
      (128 ≤ ((h : Int) - (c : Int) + 256) % 256 →
        (isOldOrDuplicate st id c).fst = false ∧
        (isOldOrDuplicate st id c).snd.seqHighWater id = some c)) ∧
    (st.seqHighWater id = some c →
      ∀ n : Nat,
        isOldOrDuplicate ((fun s => (isOldOrDuplicate s id c).snd)^[n] st) id c
          = (true, st)) := by
  refine ⟨?_, ?_, ?_⟩
  · intro hnone
    simp [isOldOrDuplicate, hnone, setHighWater]
  · intro h hsome
    constructor
    · intro hlt
      have hlt2 : ((h : Int) - (c : Int)) % 256 < 128 := by omega
      simp [isOldOrDuplicate, hsome, hlt2]
    · intro hge
      have hnlt : ¬ (((h : Int) - (c : Int)) % 256 < 128) := by omega
      simp [isOldOrDuplicate, hsome, hnlt, setHighWater]
  · intro hc n
    have hstep : isOldOrDuplicate st id c = (true, st) := by
      have hdiff : ((c : Int) - (c : Int)) % 256 < 128 := by omega
      simp [isOldOrDuplicate, hc, hdiff]
    induction n with
    | zero => simpa using hstep
    | succ k ih =>
      rw [Function.iterate_succ_apply]
      have hfix : (isOldOrDuplicate st id c).snd = st := by rw [hstep]
      rw [hfix]
      exact ih

/-- Witness for C1: concrete instances of each conjunct.  A fresh device
accepts counter 72; with high water 72, counter 68 (`diff = 4`) is
dropped with state unchanged, counter 73 (`diff = 255`) is accepted, and
replaying counter 72 five times still drops it. -/
theorem dedup_highwater_spec_witness :
    ((isOldOrDuplicate ConvState.empty "A" 72).fst = false ∧
      (isOldOrDuplicate ConvState.empty "A" 72).snd.seqHighWater "A" = some 72) ∧
    isOldOrDuplicate (setHighWater ConvState.empty "A" 72) "A" 68
      = (true, setHighWater ConvState.empty "A" 72) ∧
    ((isOldOrDuplicate (setHighWater ConvState.empty "A" 72) "A" 73).fst = false ∧
      (isOldOrDuplicate (setHighWater ConvState.empty "A" 72) "A" 73).snd.seqHighWater "A"
        = some 73) ∧
    isOldOrDuplicate
        ((fun s => (isOldOrDuplicate s "A" 72).snd)^[5]
          (setHighWater ConvState.empty "A" 72)) "A" 72
      = (true, setHighWater ConvState.empty "A" 72) :=
  ⟨(dedup_highwater_spec ConvState.empty "A" 72).1 rfl,
    ((dedup_highwater_spec (setHighWater ConvState.empty "A" 72) "A" 68).2.1 72
      (by decide)).1 (by decide),
    ((dedup_highwater_spec (setHighWater ConvState.empty "A" 72) "A" 73).2.1 72
      (by decide)).2 (by decide),
    (dedup_highwater_spec (setHighWater ConvState.empty "A" 72) "A" 72).2.2
      (by decide) 5⟩

/-- Claim C2: staleness filter.  `isStale` returns `true` if and only if
the composite state is 103, a prior staleness record exists for the
device, the time delta in seconds is at most 7200 (otherwise the safety
valve returns not-stale), exceeds `counter_delta * 60`, and exceeds 300,
with `counter_delta = (incoming - last_accepted + 256) mod 256` and the
time delta computed as `floor((now - last_timestamp) / 1000)`. -/
theorem isStale_iff (st : ConvState) (id : String) (incoming eventState : Nat)
    (now : Int) :
    isStale st id incoming eventState now = true ↔
      eventState = 103 ∧
      ∃ last : LastEvent, st.lastEventTime id = some last ∧
        Int.fdiv (now - last.timestamp) 1000 ≤ 7200 ∧
        (((incoming : Int) - (last.counter : Int) + 256) % 256) * 60 <
          Int.fdiv (now - last.timestamp) 1000 ∧
        300 < Int.fdiv (now - last.timestamp) 1000 := by
  by_cases hes : eventState = 103
  · subst hes
    cases hlast : st.lastEventTime id with
    | none => simp [isStale, hlast]
    | some last =>
      simp only [isStale, hlast, ne_eq, not_true_eq_false, if_false, true_and,
        Option.some.injEq]
      constructor
      · intro hT
        split_ifs at hT with h1 h2
        exact ⟨last, rfl, le_of_not_lt h1, h2.1, h2.2⟩
      · rintro ⟨l, hl, hle, hcd, h300⟩
        cases hl
        split_ifs with h1 h2
        · exact absurd h1 (not_lt.mpr hle)
        · rfl
        · exact h2 ⟨hcd, h300⟩
  · simp [isStale, hes]

/-- Counterexample to claim C3 as stated: with a prior staleness record
(counter 70 at time 0), composite state 103, incoming counter 73
(`counter_delta = 3`) and `time_delta` exactly 300 seconds
(`now = 300000` ms), the frame is NOT dropped as stale — the code
requires `time_delta > 300` strictly, so `isStale` is `false` and the
frame is accepted, contradicting the claimed drop. -/
theorem stale_floor_boundary_cex :
    isStale stalePrior "A" 73 103 300000 = false := by decide

/-- Claim C3 (amended): with composite state 103, `counter_delta = 3` and
`time_delta` exactly 300 seconds, the second frame is accepted (not
stale: the 300-second floor is strict, staleness requires
`time_delta > 300`); with `time_delta = 301` seconds the frame is
dropped as stale; with `time_delta = 30` seconds it is accepted. -/
theorem stale_floor_boundary_amended :
    isStale stalePrior "A" 73 103 300000 = false ∧
    isStale stalePrior "A" 73 103 301000 = true ∧
    isStale stalePrior "A" 73 103 30000 = false := by
  refine ⟨by decide, by decide, by decide⟩

/-- Helper: on a known composite state, the lock branch starting from the
empty result yields exactly the record built on source lines 284-291. -/
theorem lockBranch_empty (et es : Nat) (info : StateInfo)
    (hinfo : STATE_MAP es = some info) :
    lockBranch et es {} = some
      { state := some (if info.locked then "LOCK" else "UNLOCK"),
        lock_state := some (if info.locked then "locked" else "unlocked"),
        action := some (if et = EVT_MANUAL then "manual"
          else if et = EVT_AUTO then "auto"
          else if et = EVT_APP2 then "app" else "app"),
        door_state := info.door,
        contact := if info.door.isSome
          then some (decide (info.door = some "closed")) else none } := by
  unfold lockBranch
  rw [hinfo]
  cases hd : info.door with
  | none => simp [hd]
  | some d => simp [hd]

/-- Helper: for a lock-trigger event type (so not the door type), the
classifier is exactly the lock branch on the empty result. -/
theorem classify_lock_eq (et es : Nat)
    (hcont : LOCK_EVT_TYPES.contains et = true) (hdoor : et ≠ EVT_DOOR) :
    classify et es = lockBranch et es {} := by
  have hmem : et ∈ LOCK_EVT_TYPES := by simpa using hcont
  unfold classify
  cases hl : lockBranch et es {} with
  | none => simp [hmem, hl]
  | some r1 => simp [hmem, hl, hdoor]

/-- Claim C4: door-trigger classification.  With event type 233
(`EVT_DOOR`): composite state 96 or 112 yields `door_state = closed`
with `contact = true`; 103 or 115 yields `door_state = open` with
`contact = false`, and 115 (but not 103) additionally corrects
`lock_state` to unlocked; composite state 0 yields the empty result
record (the JS empty object: no state change, nothing emitted); any
other composite state yields no event at all. -/
theorem door_trigger_classification (es : Nat) :
    (es = 96 ∨ es = 112 →
      classify 233 es = some { door_state := some "closed", contact := some true }) ∧
    (es = 103 →
      classify 233 es = some { door_state := some "open", contact := some false }) ∧
    (es = 115 →
      classify 233 es = some { door_state := some "open", contact := some false,
                               lock_state := some "unlocked" }) ∧
    (es = 0 → classify 233 es = some {}) ∧
    (es ≠ 0 ∧ es ≠ 96 ∧ es ≠ 103 ∧ es ≠ 112 ∧ es ≠ 115 →
      classify 233 es = none) := by
  refine ⟨?_, ?_, ?_, ?_, ?_⟩
  · rintro (rfl | rfl) <;> decide
  · rintro rfl; decide
  · rintro rfl; decide
  · rintro rfl; decide
  · rintro ⟨h0, h96, h103, h112, h115⟩
    simp [classify, doorBranch, LOCK_EVT_TYPES, EVT_MANUAL, EVT_AUTO, EVT_APP,
      EVT_APP2, EVT_DOOR, h0, h96, h103, h112, h115]

/-- Witness for C4: each branch of the door classification at a concrete
composite state (96, 112, 103, 115, 0, and unknown 50). -/
theorem door_trigger_classification_witness :
    classify 233 96 = some { door_state := some "closed", contact := some true } ∧
    classify 233 112 = some { door_state := some "closed", contact := some true } ∧
    classify 233 103 = some { door_state := some "open", contact := some false } ∧
    classify 233 115 = some { door_state := some "open", contact := some false,
                              lock_state := some "unlocked" } ∧
    classify 233 0 = some {} ∧
    classify 233 50 = none :=
  ⟨(door_trigger_classification 96).1 (Or.inl rfl),
    (door_trigger_classification 112).1 (Or.inr rfl),
    (door_trigger_classification 103).2.1 rfl,
    (door_trigger_classification 115).2.2.1 rfl,
    (door_trigger_classification 0).2.2.2.1 rfl,
    (door_trigger_classification 50).2.2.2.2 (by decide)⟩

/-- Claim C5: composite-state round-trip for lock triggers.  For every
entry of `STATE_MAP` and every lock-trigger event type (19, 5, 12, 23),
the classifier emits an event whose `lock_state` is `locked` iff the
entry's `locked` flag is set (and `state` is `LOCK` iff locked), whose
`door_state` and `contact` are present iff the entry's `door` field is
non-null, and where `contact = (door == closed)` when present. -/
theorem lock_roundtrip (et es : Nat) (info : StateInfo)
    (het : et ∈ LOCK_EVT_TYPES) (hinfo : STATE_MAP es = some info) :
    ∃ ev : DecodedEvent, classify et es = some ev ∧
      ev.lock_state = some (if info.locked then "locked" else "unlocked") ∧
      ev.state = some (if info.locked then "LOCK" else "UNLOCK") ∧
      (ev.door_state.isSome ↔ info.door.isSome) ∧
      (ev.contact.isSome ↔ info.door.isSome) ∧
      (∀ d : String, info.door = some d →
        ev.door_state = some d ∧ ev.contact = some (decide (d = "closed"))) := by
  have h4 : et = 19 ∨ et = 5 ∨ et = 12 ∨ et = 23 := by
    simpa [LOCK_EVT_TYPES, EVT_MANUAL, EVT_AUTO, EVT_APP, EVT_APP2] using het
  have hcont : LOCK_EVT_TYPES.contains et = true := by
    rcases h4 with rfl | rfl | rfl | rfl <;> rfl
  have hdoor : et ≠ EVT_DOOR := by
    rcases h4 with rfl | rfl | rfl | rfl <;> simp [EVT_DOOR]
  rw [classify_lock_eq et es hcont hdoor, lockBranch_empty et es info hinfo]
  refine ⟨_, rfl, rfl, rfl, ?_, ?_, ?_⟩
  · exact Iff.rfl
  · cases hd : info.door <;> simp [hd]
  · intro d hd
    constructor
    · simpa using hd
    · simp [hd]

/-- Witness for C5: the table entry for composite state 115 under the
alternate app trigger 23 — the scenario of the end-to-end example:
unlocked, door open, contact false. -/
theorem lock_roundtrip_witness :
    ∃ ev : DecodedEvent, classify 23 115 = some ev ∧
      ev.lock_state = some "unlocked" ∧ ev.state = some "UNLOCK" ∧
      ev.door_state = some "open" ∧ ev.contact = some false := by
  obtain ⟨ev, hc, hls, hst, _, _, hdoor⟩ :=
    lock_roundtrip 23 115
      { locked := false, door := some "open", confirmed := true,
        note := "unlocked, door open/ajar" } (by decide) (by decide)
  obtain ⟨hd, hct⟩ := hdoor "open" rfl
  exact ⟨ev, hc, by simpa using hls, by simpa using hst, hd, by simpa using hct⟩

/-- Counterexample to claim C6 as stated: the composite-state table does
NOT have six known keys — filtering the full 8-bit code space for keys
with an entry yields five (0, 96, 103, 112, 115), not six. -/
theorem state_map_six_keys_cex :
    ¬ ((List.range 256).filter (fun k => (STATE_MAP k).isSome)).length = 6 := by
  decide

/-- Claim C6 (amended): the composite-state table is total over exactly
FIVE known keys (0, 96, 103, 112, 115), and for every lock-trigger frame
whose composite state is not one of those keys the classifier emits no
event — it never maps an unknown code to a guessed state. -/
theorem state_map_five_keys :
    (∀ k : Nat, (STATE_MAP k).isSome ↔
      (k = 0 ∨ k = 96 ∨ k = 103 ∨ k = 112 ∨ k = 115)) ∧
    (∀ et es : Nat, et ∈ LOCK_EVT_TYPES → STATE_MAP es = none →
      classify et es = none) := by
  constructor
  · intro k
    unfold STATE_MAP
    split_ifs with h0 h96 h103 h115 h112 <;> simp_all
  · intro et es het hnone
    have h4 : et = 19 ∨ et = 5 ∨ et = 12 ∨ et = 23 := by
      simpa [LOCK_EVT_TYPES, EVT_MANUAL, EVT_AUTO, EVT_APP, EVT_APP2] using het
    simp [classify, het, lockBranch, hnone]

/-- Witness for C6 (amended): key 96 is known, 50 is not, and a manual
lock-trigger frame with composite state 50 yields no event. -/
theorem state_map_five_keys_witness :
    (STATE_MAP 96).isSome ∧ ¬ (STATE_MAP 50).isSome ∧ classify 19 50 = none := by
  refine ⟨?_, ?_, ?_⟩
  · exact (state_map_five_keys.1 96).mpr (by tauto)
  · intro hs
    have h := (state_map_five_keys.1 50).mp hs
    omega
  · exact state_map_five_keys.2 19 50 (by decide) (by decide)

/-- Helper: an in-bounds `readByte` succeeds and returns the byte. -/
theorem readByte_ok (data : List Nat) (i : Nat) (h : i < data.length) :
    readByte data i = Except.ok (data.getD i 0) := by
  unfold readByte
  rw [dif_pos h]
  congr 1
  rw [List.getD_eq_getElem?_getD, List.getElem?_eq_getElem h]
  rfl

/-- Helper: for a buffer of valid length, `decode` reduces to the
dedup / staleness / mark / classify pipeline on the three extracted
bytes. -/
theorem decode_valid_eq (st : ConvState) (id : String) (data : List Nat)
    (now : Int) (hlen : 70 ≤ data.length ∧ data.length ≤ 90) :
    decode st id data now =
      (let seq := data.getD IDX_SEQ 0
       let p := isOldOrDuplicate st id seq
       if p.fst then Except.ok (none, p.snd)
       else if isStale p.snd id seq (data.getD IDX_STATE 0) now then
         Except.ok (none, p.snd)
       else
         Except.ok (classify (data.getD IDX_EVENT_TYPE 0) (data.getD IDX_STATE 0),
           markEventProcessed p.snd id seq now)) := by
  have h13 : IDX_SEQ < data.length := by
    unfold IDX_SEQ; omega
  have h57 : IDX_EVENT_TYPE < data.length := by
    unfold IDX_EVENT_TYPE; omega
  have h46 : IDX_STATE < data.length := by
    unfold IDX_STATE; omega
  have hnot : ¬ (data.length < 70 ∨ data.length > 90) := by omega
  unfold decode
  rw [if_neg hnot, readByte_ok data IDX_SEQ h13, readByte_ok data IDX_EVENT_TYPE h57,
    readByte_ok data IDX_STATE h46]

/-- Helper: `isOldOrDuplicate` never touches the `_lastEventTime` map. -/
theorem isOldOrDuplicate_lastEventTime (st : ConvState) (id : String) (c : Nat) :
    (isOldOrDuplicate st id c).snd.lastEventTime = st.lastEventTime := by
  unfold isOldOrDuplicate
  cases h : st.seqHighWater id with
  | none => rfl
  | some hw =>
    dsimp only
    split_ifs <;> rfl

/-- Helper: when `isOldOrDuplicate` accepts, the device's high-water mark
in the returned state is the incoming counter. -/
theorem isOldOrDuplicate_accept_highWater (st : ConvState) (id : String) (c : Nat)
    (h : (isOldOrDuplicate st id c).fst = false) :
    (isOldOrDuplicate st id c).snd.seqHighWater id = some c := by
  cases hs : st.seqHighWater id with
  | none => simp [isOldOrDuplicate, hs, setHighWater]
  | some hw =>
    by_cases hd : ((hw : Int) - (c : Int)) % 256 < 128
    · exfalso
      have hT : (isOldOrDuplicate st id c).fst = true := by
        simp [isOldOrDuplicate, hs, hd]
      rw [hT] at h
      exact Bool.noConfusion h
    · simp [isOldOrDuplicate, hs, hd, setHighWater]

/-- Helper: a counter equal to the device's current high-water mark is
dropped (`diff = 0`) and the state is returned unchanged. -/
theorem isOldOrDuplicate_self_drop (st : ConvState) (id : String) (c : Nat)
    (h : st.seqHighWater id = some c) :
    isOldOrDuplicate st id c = (true, st) := by
  have hdiff : ((c : Int) - (c : Int)) % 256 < 128 := by omega
  simp [isOldOrDuplicate, h, hdiff]

/-- Claim C7: frame validation.  For every buffer whose length is below
70 or above 90 bytes, `decode` returns no event and the state exactly as
it was handed in — no per-device record is read or modified, and no
content byte is examined (the byte reads are guarded behind the length
check in `decode`). -/
theorem decode_invalid_length (st : ConvState) (id : String) (data : List Nat)
    (now : Int) (h : data.length < 70 ∨ data.length > 90) :
    decode st id data now = Except.ok (none, st) := by
  unfold decode
  rw [if_pos h]

/-- Witness for C7: the empty buffer yields no event and an unchanged
state. -/
theorem decode_invalid_length_witness :
    decode ConvState.empty "A" [] 0 = Except.ok (none, ConvState.empty) :=
  decode_invalid_length ConvState.empty "A" [] 0 (by decide)

/-- Claim C8: staleness-state write invariant.  `isStale` is pure by its
very type (it returns only a `Bool`), and the per-device staleness
record is written exactly when the frame passes the length check, the
deduplication check and the staleness check: on that path the final
state is literally `markEventProcessed` of the post-dedup state (the
explicit mark-processed step), and on every other path (invalid length,
duplicate drop, stale drop) the `_lastEventTime` map comes back
unchanged. -/
theorem staleness_write_iff (st : ConvState) (id : String) (data : List Nat)
    (now : Int) :
    ((70 ≤ data.length ∧ data.length ≤ 90) →
      (isOldOrDuplicate st id (data.getD IDX_SEQ 0)).fst = false →
      isStale (isOldOrDuplicate st id (data.getD IDX_SEQ 0)).snd id
        (data.getD IDX_SEQ 0) (data.getD IDX_STATE 0) now = false →
      decode st id data now =
        Except.ok (classify (data.getD IDX_EVENT_TYPE 0) (data.getD IDX_STATE 0),
          markEventProcessed (isOldOrDuplicate st id (data.getD IDX_SEQ 0)).snd id
            (data.getD IDX_SEQ 0) now)) ∧
    ((70 ≤ data.length ∧ data.length ≤ 90) →
      (isOldOrDuplicate st id (data.getD IDX_SEQ 0)).fst = true →
      decode st id data now =
        Except.ok (none, (isOldOrDuplicate st id (data.getD IDX_SEQ 0)).snd) ∧
      (isOldOrDuplicate st id (data.getD IDX_SEQ 0)).snd.lastEventTime
        = st.lastEventTime) ∧
    ((70 ≤ data.length ∧ data.length ≤ 90) →
      isStale (isOldOrDuplicate st id (data.getD IDX_SEQ 0)).snd id
        (data.getD IDX_SEQ 0) (data.getD IDX_STATE 0) now = true →
      decode st id data now =
        Except.ok (none, (isOldOrDuplicate st id (data.getD IDX_SEQ 0)).snd) ∧
      (isOldOrDuplicate st id (data.getD IDX_SEQ 0)).snd.lastEventTime
        = st.lastEventTime) ∧
    ((data.length < 70 ∨ data.length > 90) →
      decode st id data now = Except.ok (none, st)) := by
  refine ⟨?_, ?_, ?_, ?_⟩
  · intro hlen hdup hstale
    rw [decode_valid_eq st id data now hlen]
    simp only [List.getD_eq_getElem?_getD] at hdup hstale
    simp [hdup, hstale]
  · intro hlen hdup
    refine ⟨?_, isOldOrDuplicate_lastEventTime st id _⟩
    rw [decode_valid_eq st id data now hlen]
    simp only [List.getD_eq_getElem?_getD] at hdup
    simp [hdup]
  · intro hlen hstale
    refine ⟨?_, isOldOrDuplicate_lastEventTime st id _⟩
    rw [decode_valid_eq st id data now hlen]
    by_cases hdup : (isOldOrDuplicate st id (data.getD IDX_SEQ 0)).fst = true
    · simp only [List.getD_eq_getElem?_getD] at hdup
      simp [hdup]
    · simp only [Bool.not_eq_true] at hdup
      simp only [List.getD_eq_getElem?_getD] at hdup hstale
      simp [hdup, hstale]
  · intro h
    unfold decode
    rw [if_pos h]

/-- A valid-length frame (70 bytes) whose counter byte is 73 and whose
composite-state byte is 103; all other bytes zero. -/
def dataStale : List Nat := ((List.replicate 70 0).set IDX_SEQ 73).set IDX_STATE 103

/-- Witness for C8: all four cases at concrete inputs.  An all-zero
70-byte frame on a fresh device passes all checks and writes the record;
a device whose high-water mark is already 0 drops it as a duplicate with
the record untouched; `dataStale` on a device whose last processed event
was counter 70 at time 0, decoded at 400 seconds, is dropped as stale
with the record untouched; the empty buffer changes nothing. -/
theorem staleness_write_iff_witness :
    decode ConvState.empty "A" (List.replicate 70 0) 0 =
      Except.ok (classify ((List.replicate 70 0).getD IDX_EVENT_TYPE 0)
          ((List.replicate 70 0).getD IDX_STATE 0),
        markEventProcessed
          (isOldOrDuplicate ConvState.empty "A"
            ((List.replicate 70 0).getD IDX_SEQ 0)).snd "A"
          ((List.replicate 70 0).getD IDX_SEQ 0) 0) ∧
    (decode (setHighWater ConvState.empty "A" 0) "A" (List.replicate 70 0) 0 =
      Except.ok (none,
        (isOldOrDuplicate (setHighWater ConvState.empty "A" 0) "A"
          ((List.replicate 70 0).getD IDX_SEQ 0)).snd) ∧
      (isOldOrDuplicate (setHighWater ConvState.empty "A" 0) "A"
        ((List.replicate 70 0).getD IDX_SEQ 0)).snd.lastEventTime
        = (setHighWater ConvState.empty "A" 0).lastEventTime) ∧
    (decode stalePrior "A" dataStale 400000 =
      Except.ok (none, (isOldOrDuplicate stalePrior "A" (dataStale.getD IDX_SEQ 0)).snd) ∧
      (isOldOrDuplicate stalePrior "A" (dataStale.getD IDX_SEQ 0)).snd.lastEventTime
        = stalePrior.lastEventTime) ∧
    decode ConvState.empty "B" [] 0 = Except.ok (none, ConvState.empty) :=
  ⟨(staleness_write_iff ConvState.empty "A" (List.replicate 70 0) 0).1
      (by decide) (by decide) (by decide),
    (staleness_write_iff (setHighWater ConvState.empty "A" 0) "A"
      (List.replicate 70 0) 0).2.1 (by decide) (by decide),
    (staleness_write_iff stalePrior "A" dataStale 400000).2.2.1
      (by decide) (by decide),
    (staleness_write_iff ConvState.empty "B" [] 0).2.2.2 (by decide)⟩

/-- Claim C9: totality.  For every state, device identifier, byte buffer
(any length, any content) and clock value, `decode` returns a value and
never an error: in particular every byte read (offsets 13, 46, 57) is in
bounds because it happens only after the length check has guaranteed at
least 70 bytes (`readByte` would return `Except.error` on an
out-of-bounds read, and `decode` never does). -/
theorem decode_total (st : ConvState) (id : String) (data : List Nat)
    (now : Int) :
    ∃ r : Option DecodedEvent × ConvState, decode st id data now = Except.ok r := by
  by_cases hlen : data.length < 70 ∨ data.length > 90
  · exact ⟨(none, st), by unfold decode; rw [if_pos hlen]⟩
  · have hlen2 : 70 ≤ data.length ∧ data.length ≤ 90 := by omega
    rw [decode_valid_eq st id data now hlen2]
    dsimp only
    split_ifs <;> exact ⟨_, rfl⟩

/-- Claim C10: once a frame passes the deduplication check, the filter
state is never rolled back by a later drop.  After acceptance the
device's high-water mark equals the frame's counter; if the frame is
then dropped as stale, the high-water mark keeps that value, so an exact
replay is dropped by the dedup check (its `isOldOrDuplicate` is `true`)
and decoding the replay leaves the state unchanged; if the frame instead
passes staleness but is dropped by the classifier (no event emitted),
the staleness baseline still points at that frame (counter and
timestamp written by `markEventProcessed`). -/
theorem no_rollback_after_dedup (st : ConvState) (id : String) (data : List Nat)
    (now now2 : Int)
    (hlen : 70 ≤ data.length ∧ data.length ≤ 90)
    (hdup : (isOldOrDuplicate st id (data.getD IDX_SEQ 0)).fst = false) :
    (isOldOrDuplicate st id (data.getD IDX_SEQ 0)).snd.seqHighWater id
      = some (data.getD IDX_SEQ 0) ∧
    (isStale (isOldOrDuplicate st id (data.getD IDX_SEQ 0)).snd id
        (data.getD IDX_SEQ 0) (data.getD IDX_STATE 0) now = true →
      decode st id data now =
        Except.ok (none, (isOldOrDuplicate st id (data.getD IDX_SEQ 0)).snd) ∧
      (isOldOrDuplicate (isOldOrDuplicate st id (data.getD IDX_SEQ 0)).snd id
        (data.getD IDX_SEQ 0)).fst = true ∧
      decode (isOldOrDuplicate st id (data.getD IDX_SEQ 0)).snd id data now2 =
        Except.ok (none, (isOldOrDuplicate st id (data.getD IDX_SEQ 0)).snd)) ∧
    (isStale (isOldOrDuplicate st id (data.getD IDX_SEQ 0)).snd id
        (data.getD IDX_SEQ 0) (data.getD IDX_STATE 0) now = false →
      classify (data.getD IDX_EVENT_TYPE 0) (data.getD IDX_STATE 0) = none →
      decode st id data now =
        Except.ok (none,
          markEventProcessed (isOldOrDuplicate st id (data.getD IDX_SEQ 0)).snd id
            (data.getD IDX_SEQ 0) now) ∧
      (markEventProcessed (isOldOrDuplicate st id (data.getD IDX_SEQ 0)).snd id
        (data.getD IDX_SEQ 0) now).lastEventTime id
        = some { counter := data.getD IDX_SEQ 0, timestamp := now } ∧
      (markEventProcessed (isOldOrDuplicate st id (data.getD IDX_SEQ 0)).snd id
        (data.getD IDX_SEQ 0) now).seqHighWater id
        = some (data.getD IDX_SEQ 0)) := by
  have hhw := isOldOrDuplicate_accept_highWater st id (data.getD IDX_SEQ 0) hdup
  refine ⟨hhw, ?_, ?_⟩
  · intro hstale
    have hre := isOldOrDuplicate_self_drop
      (isOldOrDuplicate st id (data.getD IDX_SEQ 0)).snd id (data.getD IDX_SEQ 0) hhw
    refine ⟨?_, ?_, ?_⟩
    · rw [decode_valid_eq st id data now hlen]
      simp only [List.getD_eq_getElem?_getD] at hdup hstale
      simp [hdup, hstale]
    · rw [hre]
    · rw [decode_valid_eq _ id data now2 hlen]
      simp only [List.getD_eq_getElem?_getD] at hre
      simp [hre]
  · intro hstale hclass
    refine ⟨?_, ?_, ?_⟩
    · rw [decode_valid_eq st id data now hlen]
      simp only [List.getD_eq_getElem?_getD] at hdup hstale hclass
      simp [hdup, hstale, hclass]
    · simp [markEventProcessed]
    · have hhw2 := hhw
      simp only [List.getD_eq_getElem?_getD] at hhw2
      simp [markEventProcessed, hhw2]

/-- Witness for C10: with `dataStale` (counter 73, composite state 103)
on a device whose last processed event was counter 70 at time 0, decoding
at 400 seconds is a stale drop, yet the high-water mark is 73 and the
replay is dropped as a duplicate; on a fresh device the same frame
passes staleness but the classifier drops it (unknown event type 0), yet
the staleness baseline records counter 73. -/
theorem no_rollback_after_dedup_witness :
    (isOldOrDuplicate stalePrior "A" (dataStale.getD IDX_SEQ 0)).snd.seqHighWater "A"
      = some (dataStale.getD IDX_SEQ 0) ∧
    (isOldOrDuplicate (isOldOrDuplicate stalePrior "A" (dataStale.getD IDX_SEQ 0)).snd
      "A" (dataStale.getD IDX_SEQ 0)).fst = true ∧
    (markEventProcessed (isOldOrDuplicate ConvState.empty "A"
        (dataStale.getD IDX_SEQ 0)).snd "A" (dataStale.getD IDX_SEQ 0) 0).lastEventTime "A"
      = some { counter := dataStale.getD IDX_SEQ 0, timestamp := 0 } :=
  ⟨(no_rollback_after_dedup stalePrior "A" dataStale 400000 0
      (by decide) (by decide)).1,
    ((no_rollback_after_dedup stalePrior "A" dataStale 400000 0
      (by decide) (by decide)).2.1 (by decide)).2.1,
    ((no_rollback_after_dedup ConvState.empty "A" dataStale 0 0
      (by decide) (by decide)).2.2 (by decide) (by decide)).2.1⟩

end WyzeLock
